import Mathlib

/-!
Shallow embedding of the test-crawler ingestion core:
`src/functions/ingestion/orchestrator.ts` (IngestionOrchestrator.executeTask)
and `src/functions/GlobalIngestionLifecycleManager.ts` (task store, trigger
evaluation, private execution routine).  JavaScript values that flow through
the pipeline are modelled by a small JSON-like type `JVal`; `Date` values are
modelled as integer milliseconds; the external collaborators excluded by the
spec (source connectors, transformers, destination adapters, cron-parser)
are parameters of the model, each call site keeping the source's control
flow around them.
-/

/-- JSON-like runtime value (JavaScript values crossing the pipeline).
`undefined` models the JavaScript undefined value, distinct from `null`. -/
inductive JVal where
  | undefined : JVal
  | null : JVal
  | bool (b : Bool) : JVal
  | num (n : Int) : JVal
  | str (s : String) : JVal
  | arr (items : List JVal) : JVal
  | obj (fields : List (String × JVal)) : JVal

/-- Association-list lookup; models `Map.get` (and object property access). -/
def lookupKey {α : Type} : List (String × α) → String → Option α
  | [], _ => none
  | (k, v) :: rest, key => if k = key then some v else lookupKey rest key

/-- Models `Map.set`: replace the value in place if the key exists, else
append (JS `Map` preserves insertion order). -/
def setKey {α : Type} : List (String × α) → String → α → List (String × α)
  | [], key, v => [(key, v)]
  | (k, w) :: rest, key, v =>
      if k = key then (k, v) :: rest else (k, w) :: setKey rest key v

/-- Models `Map.delete`. -/
def removeKey {α : Type} : List (String × α) → String → List (String × α)
  | [], _ => []
  | (k, w) :: rest, key =>
      if k = key then rest else (k, w) :: removeKey rest key

/-- Models `Map.has`. -/
def containsKey {α : Type} (l : List (String × α)) (key : String) : Bool :=
  (lookupKey l key).isSome

/-- JavaScript truthiness of a value. -/
def JVal.truthy : JVal → Bool
  | .undefined => false
  | .null => false
  | .bool b => b
  | .num n => n != 0
  | .str s => s != ""
  | .arr _ => true
  | .obj _ => true

/-- Property access `v[key]` on an object; `none` models `undefined`
(missing property or access on a non-object). -/
def JVal.getField : JVal → String → Option JVal
  | .obj fields, key => lookupKey fields key
  | _, _ => none

/-- Truthiness of a possibly-undefined value. -/
def truthyOpt : Option JVal → Bool
  | none => false
  | some v => v.truthy

/-- `GSStatus` from `@godspeedsystems/core` as used by this repository:
`{success, code?, message, data?}`. -/
structure GSStatus where
  success : Bool
  code : Option Int := none
  message : String := ""
  data : Option JVal := none

/-- `IngestionData` (src/functions/ingestion/interfaces.ts): the uniform
record produced by transformers.  Extra dynamic properties are not needed
by the verified claims and are omitted. -/
structure IngestionData where
  id : String
  content : JVal
  metadata : List (String × JVal) := []
  fetchedAt : Option JVal := none

/-- `IngestionTaskStatus` enum. -/
inductive IngestionTaskStatus where
  | SCHEDULED | RUNNING | COMPLETED | FAILED | DISABLED
deriving DecidableEq, Repr

/-- A `{pluginType, config}` reference inside a task definition. -/
structure PluginRef where
  pluginType : String
  config : JVal := .undefined

/-- `IngestionTrigger` tagged union. -/
inductive IngestionTrigger where
  | cron (expression : String)
  | webhook (endpointId : String)
  | manual
deriving DecidableEq, Repr

/-- `IngestionTaskDefinition`.  `lastRun : Date` is modelled as integer
milliseconds. -/
structure IngestionTaskDefinition where
  id : String
  name : String := ""
  enabled : Bool
  trigger : IngestionTrigger
  source : PluginRef
  destination : Option PluginRef := none
  currentStatus : Option IngestionTaskStatus := none
  lastRun : Option Int := none
  lastRunStatus : Option GSStatus := none

/-- Event names of `IngestionEvents` (interfaces.ts), restricted to the ones
the manager and orchestrator actually emit. -/
inductive EventName where
  | task_scheduled | task_updated | task_enabled | task_disabled
  | task_deleted | task_triggered | task_completed | task_failed
  | data_fetched | data_transformed | data_processed
deriving DecidableEq, Repr

/-- Payload attached to an event emission (the non-taskId arguments). -/
inductive EvPayload where
  | status (s : GSStatus)
  | raw (items : List JVal)
  | records (rs : List IngestionData)
  | taskDef (t : IngestionTaskDefinition)
  | empty

/-- One emission on the shared event bus. -/
structure Event where
  name : EventName
  taskId : String
  payload : EvPayload

/-- Outcome of calling external (or lower-layer) code: a normal return or a
thrown exception carrying `error.message`. -/
inductive CallResult (α : Type) where
  | ok (val : α)
  | thrown (msg : String)

/-- Number of terminal events (TASK_COMPLETED or TASK_FAILED) in a bus
trace. -/
def countTerminal (evs : List Event) : Nat :=
  (evs.filter (fun e => e.name = .task_completed ∨ e.name = .task_failed)).length

/-- Number of events with a given name in a bus trace. -/
def countName (n : EventName) (evs : List Event) : Nat :=
  (evs.filter (fun e => e.name = n)).length

/-- `o.getD undefined`: a possibly-missing value placed into an object
literal field (e.g. `{ data: sourceResultStatus.data }`). -/
def jOpt (o : Option JVal) : JVal :=
  o.getD .undefined

/-- Models `Date.prototype.toISOString` on a millisecond timestamp; the
exact rendering is irrelevant to the claims, only that equal instants
render equally, so the decimal rendering is used. -/
def dateToISOString (ms : Int) : String :=
  toString ms

/-- Raw-item extraction from a successful source Status
(orchestrator.ts lines 59-68): prefer the nested `status.data.data` array
(wrapping a non-array), else wrap a truthy `status.data`, else no items. -/
def extractRaw (d : Option JVal) : List JVal :=
  match d with
  | none => []
  | some v =>
      if v.truthy && truthyOpt (v.getField "data") then
        match v.getField "data" with
        | some (.arr xs) => xs
        | some w => [w]
        | none => []
      else if v.truthy then [v]
      else []

/-- `{ ...initialPayload, fetchedAt: fetchedAt.toISOString() }`
(orchestrator.ts line 79).  Spreading `undefined` or a non-object
contributes no fields (string/array index-spreading is not exercised by
this repository's payloads). -/
def payloadWithFetchedAt (p : Option JVal) (iso : String) : JVal :=
  match p with
  | some (.obj fields) => .obj (setKey fields "fetchedAt" (.str iso))
  | _ => .obj [("fetchedAt", .str iso)]

/-- Behaviour of the collaborators bound to one orchestrator instance for
one invocation, plus the `new Date()` reading taken after the source
returns.  `sourceBound`/`transformerBound` model the runtime guard
`!this.sourceDataSource || !this.dataTransformer`. -/
structure OrchEnv where
  sourceBound : Bool := true
  transformerBound : Bool := true
  initClient : CallResult Unit := .ok ()
  sourceExec : CallResult GSStatus := .thrown "unbound"
  fetchedAtMs : Int := 0
  transform : List JVal → JVal → CallResult (List IngestionData) := fun _ _ => .ok []
  hasDestination : Bool := false
  processData : List IngestionData → CallResult GSStatus := fun _ => .ok { success := true }

/-- Result of one `executeTask` invocation: the returned Status, the events
emitted on the shared bus in order, and the calls made to the transformer
and to `destination.processData`. -/
structure OrchResult where
  status : GSStatus
  events : List Event := []
  transformCalls : List (List JVal × JVal) := []
  destCalls : List (List IngestionData) := []

/-- Status built by the orchestrator's top-level catch
(orchestrator.ts lines 125-130). -/
def topCatchStatus (taskId : String) (totalItemsProcessed : Nat) (m : String) : GSStatus :=
  { success := false, code := some 500,
    message := "Ingestion task " ++ taskId ++ " failed: " ++ m,
    data := some (.obj [("itemsProcessed", .num totalItemsProcessed), ("data", .str m)]) }

/-- Success Status of a completed run (orchestrator.ts line 121). -/
def orchSuccessStatus (n : Nat) : GSStatus :=
  { success := true, code := some 200,
    message := "Ingestion task completed successfully.",
    data := some (.obj [("itemsProcessed", .num n)]) }

namespace IngestionOrchestrator

/-- `IngestionOrchestrator.executeTask` (orchestrator.ts lines 35-132),
one invocation, with collaborator behaviour `env`. -/
def executeTask (env : OrchEnv) (taskId : String) (initialPayload : Option JVal) : OrchResult :=
  if !(env.sourceBound && env.transformerBound) then
    let errorMessage :=
      "Orchestrator not fully configured. DataSource and dataTransformer are required."
    { status := { success := false, code := some 400, message := errorMessage },
      events := [⟨.task_failed, taskId, .status { success := false, message := errorMessage }⟩] }
  else
    match env.initClient with
    | .thrown m =>
        let st := topCatchStatus taskId 0 m
        { status := st, events := [⟨.task_failed, taskId, .status st⟩] }
    | .ok _ =>
    match env.sourceExec with
    | .thrown m =>
        let st := topCatchStatus taskId 0 m
        { status := st, events := [⟨.task_failed, taskId, .status st⟩] }
    | .ok sourceResultStatus =>
    if sourceResultStatus.success then
      let rawData := extractRaw sourceResultStatus.data
      let ev1 : List Event := [⟨.data_fetched, taskId, .raw rawData⟩]
      let payloadFA :=
        payloadWithFetchedAt initialPayload (dateToISOString env.fetchedAtMs)
      match env.transform rawData payloadFA with
      | .thrown m =>
          let st := topCatchStatus taskId 0 m
          { status := st, events := ev1 ++ [⟨.task_failed, taskId, .status st⟩],
            transformCalls := [(rawData, payloadFA)] }
      | .ok transformedData =>
          let ev2 := ev1 ++ [⟨.data_transformed, taskId, .records transformedData⟩]
          if transformedData.length = 0 then
            let st : GSStatus :=
              { success := true, code := some 200,
                message := "Ingestion task completed: No data from source.",
                data := some (.obj [("itemsProcessed", .num 0)]) }
            { status := st, events := ev2 ++ [⟨.task_completed, taskId, .status st⟩],
              transformCalls := [(rawData, payloadFA)] }
          else if env.hasDestination then
            match env.processData transformedData with
            | .thrown m =>
                let st : GSStatus :=
                  { success := false, code := some 500,
                    message := "Error during destination processing for task " ++ taskId ++ ": " ++ m,
                    data := some (.obj [("itemsProcessed", .num 0), ("data", .str m)]) }
                { status := st, events := ev2 ++ [⟨.task_failed, taskId, .status st⟩],
                  transformCalls := [(rawData, payloadFA)],
                  destCalls := [transformedData] }
            | .ok sendResult =>
                if !sendResult.success then
                  let st : GSStatus :=
                    { success := false, code := some 500,
                      message := "Destination processing failed for task " ++ taskId ++ ": " ++ sendResult.message,
                      data := some (.obj [("itemsProcessed", .num 0), ("data", jOpt sendResult.data)]) }
                  { status := st, events := ev2 ++ [⟨.task_failed, taskId, .status st⟩],
                    transformCalls := [(rawData, payloadFA)],
                    destCalls := [transformedData] }
                else
                  let st := orchSuccessStatus transformedData.length
                  { status := st,
                    events := ev2 ++ [⟨.data_processed, taskId, .records transformedData⟩,
                                      ⟨.task_completed, taskId, .status st⟩],
                    transformCalls := [(rawData, payloadFA)],
                    destCalls := [transformedData] }
          else
            let st := orchSuccessStatus transformedData.length
            { status := st, events := ev2 ++ [⟨.task_completed, taskId, .status st⟩],
              transformCalls := [(rawData, payloadFA)] }
    else
      let errorMessage :=
        "Source execution failed for task " ++ taskId ++ ": " ++ sourceResultStatus.message
      let st : GSStatus :=
        { success := false, code := some 500, message := errorMessage,
          data := some (.obj [("data", jOpt sourceResultStatus.data)]) }
      { status := st,
        events := [⟨.task_failed, taskId,
          .status { success := false, message := errorMessage, data := sourceResultStatus.data }⟩] }

end IngestionOrchestrator

/-- `passthrough-transformer.ts`: returns the items unchanged (the JS
shallow copy `({...item})` is identity on these record values). -/
def passthroughTransformer (data : List IngestionData) : List IngestionData :=
  data.map (fun item => item)

/-- What the manager caches per task id: the orchestrator instance,
identified by the construction parameters captured at first execution
(GlobalIngestionLifecycleManager.ts lines 332-350). -/
structure OrchInstance where
  taskId : String
  sourcePluginType : String
  sourceConfig : JVal
  destinationPluginType : Option String := none
  destinationConfig : Option JVal := none

/-- `GlobalIngestionLifecycleManager` state.  The registries store
constructors and transformer functions; their registered names live here
and their behaviour in `ExecEnv`. -/
structure ManagerState where
  tasks : List (String × IngestionTaskDefinition) := []
  sourcePlugins : List String := []
  destinationPlugins : List String := []
  orchestrators : List (String × OrchInstance) := []
  lifecycleStarted : Bool := false

/-- The `GSContext` fields the manager reads (`ctx.event?.time`). -/
structure GSContext where
  eventTime : Option Int := none

/-- Behaviour of the code the manager calls out to:
`orchestrator.executeTask` (its bus emissions and returned-or-thrown
Status), the source-plugin constructor, destination construction plus
`init`, the external `cron-parser` (`parse` + `prev` collapsing to the
most recent fire time at or before the reference instant, or a parse
error), and successive `new Date()` readings. -/
structure ExecEnv where
  execute : OrchInstance → Option JVal → List Event × CallResult GSStatus
  sourceCtor : String → JVal → CallResult Unit := fun _ _ => .ok ()
  destInit : String → JVal → CallResult Unit := fun _ _ => .ok ()
  cronPrev : String → Int → CallResult Int := fun _ _ => .thrown "parse error"
  wallClock : Nat → Int := fun _ => 0

/-- Result of one `_executeIngestionTask` invocation: the returned (or
thrown) Status, the manager state after its mutations, the next clock
index, the bus emissions, and the calls that reached the routine
(`execCalls`) and the orchestrator (`orchCalls`). -/
structure ExecResult where
  outcome : CallResult GSStatus
  state : ManagerState
  k : Nat
  events : List Event := []
  execCalls : List (String × Option JVal) := []
  orchCalls : List (OrchInstance × Option JVal) := []

/-- Replace the stored definition of one task (the in-place mutation of
the task object held by the `tasks` map). -/
def setTask (st : ManagerState) (taskId : String) (task : IngestionTaskDefinition) :
    ManagerState :=
  { st with tasks := setKey st.tasks taskId task }

/-- Cache an orchestrator instance (`this.orchestrators.set`). -/
def setOrch (st : ManagerState) (taskId : String) (orch : OrchInstance) : ManagerState :=
  { st with orchestrators := setKey st.orchestrators taskId orch }

/-- The `finally` block of `_executeIngestionTask` (lines 379-383). -/
def finallyAdjust (task : IngestionTaskDefinition) : IngestionTaskDefinition :=
  if task.currentStatus ≠ some .FAILED ∧ task.currentStatus ≠ some .COMPLETED then
    { task with currentStatus := some (if task.enabled then .SCHEDULED else .DISABLED) }
  else task

namespace GlobalIngestionLifecycleManager

/-- Lines 352-385 of `_executeIngestionTask`: mark RUNNING, stamp
`lastRun`, emit TASK_TRIGGERED, run the orchestrator, record the terminal
status and emit the manager-level terminal event (the orchestrator's own
emissions `oev` land on the same shared bus first). -/
def afterOrch (env : ExecEnv) (st : ManagerState) (k : Nat) (taskId : String)
    (task : IngestionTaskDefinition) (initialPayload : Option JVal)
    (orch : OrchInstance) : ExecResult :=
  let task2 := { task with currentStatus := some .RUNNING
                           lastRun := some (env.wallClock k) }
  let st2 := setTask st taskId task2
  let evs : List Event := [⟨.task_triggered, taskId, .empty⟩]
  let r := env.execute orch initialPayload
  match r.2 with
  | .ok executionStatus =>
      let task3 :=
        { task2 with
            lastRunStatus := some executionStatus
            currentStatus := some (if executionStatus.success then .COMPLETED else .FAILED) }
      { outcome := .ok executionStatus,
        state := setTask st2 taskId (finallyAdjust task3), k := k + 1,
        events := evs ++ r.1 ++
          [⟨if executionStatus.success then .task_completed else .task_failed,
            taskId, .status executionStatus⟩],
        orchCalls := [(orch, initialPayload)] }
  | .thrown m =>
      let executionStatus : GSStatus :=
        { success := false, message := "Unhandled error during task execution: " ++ m }
      let task3 := { task2 with currentStatus := some .FAILED
                                lastRunStatus := some executionStatus }
      { outcome := .ok executionStatus,
        state := setTask st2 taskId (finallyAdjust task3), k := k + 1,
        events := evs ++ r.1 ++ [⟨.task_failed, taskId, .status executionStatus⟩],
        orchCalls := [(orch, initialPayload)] }

/-- Lines 332-350 of `_executeIngestionTask`: reuse the cached
orchestrator or construct one (source constructor, then destination
construction + `init`, either of which may throw before the `try`,
propagating to the caller with no status bookkeeping). -/
def runWithOrchestrator (env : ExecEnv) (st : ManagerState) (k : Nat) (taskId : String)
    (task : IngestionTaskDefinition) (initialPayload : Option JVal) : ExecResult :=
  match lookupKey st.orchestrators taskId with
  | some orch => afterOrch env st k taskId task initialPayload orch
  | none =>
      match env.sourceCtor task.source.pluginType task.source.config with
      | .thrown m => { outcome := .thrown m, state := st, k := k }
      | .ok _ =>
          match task.destination with
          | some d =>
              match env.destInit d.pluginType d.config with
              | .thrown m => { outcome := .thrown m, state := st, k := k }
              | .ok _ =>
                  let orch : OrchInstance :=
                    { taskId := taskId, sourcePluginType := task.source.pluginType,
                      sourceConfig := task.source.config,
                      destinationPluginType := some d.pluginType,
                      destinationConfig := some d.config }
                  afterOrch env (setOrch st taskId orch) k taskId task initialPayload orch
          | none =>
              let orch : OrchInstance :=
                { taskId := taskId, sourcePluginType := task.source.pluginType,
                  sourceConfig := task.source.config }
              afterOrch env (setOrch st taskId orch) k taskId task initialPayload orch

/-- `_executeIngestionTask` (lines 302-386): the private execution routine
all three trigger paths converge on. -/
def _executeIngestionTask (env : ExecEnv) (st : ManagerState) (k : Nat) (taskId : String)
    (task : IngestionTaskDefinition) (initialPayload : Option JVal) : ExecResult :=
  let r : ExecResult :=
    if !task.enabled then
      let status : GSStatus :=
        { success := false
          message := "Task '" ++ taskId ++ "' is disabled."
          data := some (.obj [("code", .str "TASK_DISABLED")]) }
      { outcome := .ok status, state := st, k := k }
    else if !(st.sourcePlugins.contains task.source.pluginType) then
      let status : GSStatus :=
        { success := false
          message := "Source plugin '" ++ task.source.pluginType ++ "' not registered." }
      let task1 := { task with currentStatus := some .FAILED, lastRunStatus := some status }
      { outcome := .ok status, state := setTask st taskId task1, k := k,
        events := [⟨.task_failed, taskId, .status status⟩] }
    else
      match task.destination with
      | some d =>
          if !(st.destinationPlugins.contains d.pluginType) then
            let status : GSStatus :=
              { success := false
                message := "Destination plugin '" ++ d.pluginType ++ "' not registered." }
            let task1 := { task with currentStatus := some .FAILED
                                     lastRunStatus := some status }
            { outcome := .ok status, state := setTask st taskId task1, k := k,
              events := [⟨.task_failed, taskId, .status status⟩] }
          else runWithOrchestrator env st k taskId task initialPayload
      | none => runWithOrchestrator env st k taskId task initialPayload
  { r with execCalls := (taskId, initialPayload) :: r.execCalls }

/-- `triggerManualTask` (lines 193-206); the only preconditions are that
the id is known and the task enabled. -/
def triggerManualTask (env : ExecEnv) (st : ManagerState) (k : Nat) (taskId : String)
    (initialPayload : Option JVal) : ExecResult :=
  match lookupKey st.tasks taskId with
  | none =>
      let status : GSStatus :=
        { success := false, message := "Task '" ++ taskId ++ "' not found." }
      { outcome := .ok status, state := st, k := k }
  | some task =>
      if !task.enabled then
        let status : GSStatus :=
          { success := false, message := "Task '" ++ taskId ++ "' is disabled." }
        { outcome := .ok status, state := st, k := k }
      else
        _executeIngestionTask env st k task.id task initialPayload

end GlobalIngestionLifecycleManager

/-- A GSStatus rendered as the plain object carried inside aggregate
result data. -/
def statusToJVal (s : GSStatus) : JVal :=
  .obj [("success", .bool s.success), ("code", (s.code.map JVal.num).getD .undefined),
        ("message", .str s.message), ("data", jOpt s.data)]

/-- The `results` arrays built by the webhook and cron batch triggers. -/
def resultsToJVal (rs : List (String × GSStatus)) : JVal :=
  .arr (rs.map (fun r => .obj [("taskId", .str r.1), ("status", statusToJVal r.2)]))

/-- Accumulator threaded through the webhook and cron per-task loops. -/
structure LoopAcc where
  state : ManagerState
  k : Nat
  events : List Event := []
  execCalls : List (String × Option JVal) := []
  orchCalls : List (OrchInstance × Option JVal) := []
  results : List (String × GSStatus) := []
  thrownMsg : Option String := none
  tasksDueCount : Nat := 0

/-- The cron due condition (GlobalIngestionLifecycleManager.ts line 262):
`previousRunTime > sixtyFiveSecondsAgo && previousRunTime <= now &&
(!task.lastRun || task.lastRun < previousRunTime)`. -/
def cronDue (now : Int) (lastRun : Option Int) (previousRunTime : Int) : Bool :=
  decide (now - 65 * 1000 < previousRunTime) && decide (previousRunTime ≤ now) &&
    (match lastRun with
     | none => true
     | some lr => decide (lr < previousRunTime))

namespace GlobalIngestionLifecycleManager

/-- The filter of `triggerWebhookTask` (lines 210-212): enabled tasks
whose trigger is a webhook with the matching endpointId, in store order. -/
def webhookMatchedTasks (st : ManagerState) (endpointId : String) :
    List IngestionTaskDefinition :=
  (st.tasks.map Prod.snd).filter
    (fun task => task.enabled &&
      match task.trigger with
      | .webhook e => e == endpointId
      | _ => false)

/-- The `for` loop of `triggerWebhookTask` (lines 220-225).  An exception
from `_executeIngestionTask` is not caught here, so it aborts the loop and
rejects the whole call (`thrownMsg`). -/
def webhookLoop (env : ExecEnv) (payload : JVal) :
    List IngestionTaskDefinition → LoopAcc → LoopAcc
  | [], acc => acc
  | task :: rest, acc =>
      let r := _executeIngestionTask env acc.state acc.k task.id task
        (some (.obj [("webhookPayload", payload)]))
      let acc1 : LoopAcc :=
        { acc with
            state := r.state, k := r.k
            events := acc.events ++ r.events
            execCalls := acc.execCalls ++ r.execCalls
            orchCalls := acc.orchCalls ++ r.orchCalls }
      match r.outcome with
      | .ok status =>
          webhookLoop env payload rest
            { acc1 with results := acc.results ++ [(task.id, status)] }
      | .thrown m => { acc1 with thrownMsg := some m }

/-- `triggerWebhookTask` (lines 208-233). -/
def triggerWebhookTask (env : ExecEnv) (st : ManagerState) (k : Nat)
    (endpointId : String) (payload : JVal) : LoopAcc × CallResult GSStatus :=
  let tasksToTrigger := webhookMatchedTasks st endpointId
  if tasksToTrigger.length = 0 then
    let status : GSStatus :=
      { success := false
        message := "No enabled webhook task found for endpointId: '" ++ endpointId ++ "'." }
    ({ state := st, k := k }, .ok status)
  else
    let acc := webhookLoop env payload tasksToTrigger { state := st, k := k }
    match acc.thrownMsg with
    | some m => (acc, .thrown m)
    | none =>
        let successful := (acc.results.filter (fun r => r.2.success)).length
        let failed := acc.results.length - successful
        if failed > 0 then
          let status : GSStatus :=
            { success := false
              message := "Webhook triggered " ++ toString acc.results.length ++
                " tasks. " ++ toString successful ++ " succeeded, " ++
                toString failed ++ " failed."
              data := some (resultsToJVal acc.results) }
          (acc, .ok status)
        else
          let status : GSStatus :=
            { success := true
              message := "Webhook successfully triggered " ++ toString successful ++ " tasks."
              data := some (resultsToJVal acc.results) }
          (acc, .ok status)

/-- The `for` loop of `triggerAllEnabledCronTasks` (lines 242-283).  The
`await` of the execution sits inside the same per-task `try` as the cron
parse, so a rejected execution is recorded with the parse-error message
and the loop continues. -/
def cronLoop (env : ExecEnv) (now : Int) :
    List IngestionTaskDefinition → LoopAcc → LoopAcc
  | [], acc => acc
  | task :: rest, acc =>
      if task.enabled then
        match task.trigger with
        | .cron expression =>
            (match env.cronPrev expression now with
             | .thrown m =>
                 let perr : GSStatus :=
                   { success := false, message := "Cron expression parse error: " ++ m }
                 cronLoop env now rest
                   { acc with results := acc.results ++ [(task.id, perr)] }
             | .ok previousRunTime =>
                 if cronDue now task.lastRun previousRunTime then
                   let r := _executeIngestionTask env acc.state acc.k task.id task none
                   let acc1 : LoopAcc :=
                     { acc with
                         state := r.state, k := r.k
                         events := acc.events ++ r.events
                         execCalls := acc.execCalls ++ r.execCalls
                         orchCalls := acc.orchCalls ++ r.orchCalls
                         tasksDueCount := acc.tasksDueCount + 1 }
                   match r.outcome with
                   | .ok status =>
                       cronLoop env now rest
                         { acc1 with results := acc.results ++ [(task.id, status)] }
                   | .thrown m =>
                       let perr : GSStatus :=
                         { success := false, message := "Cron expression parse error: " ++ m }
                       cronLoop env now rest
                         { acc1 with results := acc.results ++ [(task.id, perr)] }
                 else
                   cronLoop env now rest acc)
        | _ => cronLoop env now rest acc
      else cronLoop env now rest acc

/-- `triggerAllEnabledCronTasks` (lines 235-296).  `now` is taken from
`ctx.event?.time` with a wall-clock fallback. -/
def triggerAllEnabledCronTasks (env : ExecEnv) (ctx : GSContext) (st : ManagerState)
    (k : Nat) : LoopAcc × GSStatus :=
  let nowK : Int × Nat :=
    match ctx.eventTime with
    | some t => (t, k)
    | none => (env.wallClock k, k + 1)
  let acc := cronLoop env nowK.1 (st.tasks.map Prod.snd) { state := st, k := nowK.2 }
  if acc.tasksDueCount = 0 then
    (acc, { success := true, message := "No enabled cron tasks were due." })
  else
    let successful := (acc.results.filter (fun r => r.2.success)).length
    let failed := acc.results.length - successful
    if failed > 0 then
      let status : GSStatus :=
        { success := false
          message := "Cron triggered " ++ toString acc.tasksDueCount ++ " tasks. " ++
            toString successful ++ " succeeded, " ++ toString failed ++ " failed."
          data := some (resultsToJVal acc.results) }
      (acc, status)
    else
      let status : GSStatus :=
        { success := true
          message := "Successfully triggered " ++ toString successful ++ " cron tasks." }
      (acc, status)

/-- Result of a lifecycle operation on the task store. -/
structure OpResult where
  status : GSStatus
  state : ManagerState
  events : List Event := []

/-- `scheduleTask` (lines 93-114).  `generatedId` stands for the
`randomUUID()` used when the caller supplies no (or an empty) id. -/
def scheduleTask (st : ManagerState) (taskDefinition : IngestionTaskDefinition)
    (generatedId : String) : OpResult :=
  let taskId := if taskDefinition.id ≠ "" then taskDefinition.id else generatedId
  if containsKey st.tasks taskId then
    { status := { success := false, message := "Task '" ++ taskId ++ "' already exists." }
      state := st }
  else
    let td :=
      { taskDefinition with
          id := taskId
          currentStatus := some .SCHEDULED
          lastRun := none
          lastRunStatus := none }
    { status := { success := true, message := "Task '" ++ taskId ++ "' scheduled successfully." }
      state := { st with tasks := setKey st.tasks taskId td }
      events := [⟨.task_scheduled, taskId, .taskDef td⟩] }

/-- `Partial<IngestionTaskDefinition>`: the fields present in an
`updateTask` call. -/
structure TaskUpdates where
  id : Option String := none
  name : Option String := none
  enabled : Option Bool := none
  trigger : Option IngestionTrigger := none
  source : Option PluginRef := none
  destination : Option (Option PluginRef) := none
  currentStatus : Option (Option IngestionTaskStatus) := none
  lastRun : Option (Option Int) := none
  lastRunStatus : Option (Option GSStatus) := none

/-- The shallow merge `{ ...task, ...updates }` (line 125). -/
def applyUpdates (task : IngestionTaskDefinition) (u : TaskUpdates) :
    IngestionTaskDefinition :=
  { id := u.id.getD task.id
    name := u.name.getD task.name
    enabled := u.enabled.getD task.enabled
    trigger := u.trigger.getD task.trigger
    source := u.source.getD task.source
    destination := u.destination.getD task.destination
    currentStatus := u.currentStatus.getD task.currentStatus
    lastRun := u.lastRun.getD task.lastRun
    lastRunStatus := u.lastRunStatus.getD task.lastRunStatus }

/-- `updateTask` (lines 116-134).  The orchestrator cache is not touched;
the map key stays `taskId` even when the updates rewrite the `id` field. -/
def updateTask (st : ManagerState) (taskId : String) (updates : TaskUpdates) : OpResult :=
  match lookupKey st.tasks taskId with
  | none =>
      { status := { success := false, message := "Task '" ++ taskId ++ "' not found." }
        state := st }
  | some task =>
      let updatedTask := applyUpdates task updates
      { status := { success := true, message := "Task '" ++ taskId ++ "' updated successfully." }
        state := { st with tasks := setKey st.tasks taskId updatedTask }
        events := [⟨.task_updated, taskId, .taskDef updatedTask⟩] }

/-- `deleteTask` (lines 172-183): removes the task and its cached
orchestrator. -/
def deleteTask (st : ManagerState) (taskId : String) : OpResult :=
  match lookupKey st.tasks taskId with
  | none =>
      { status := { success := false, message := "Task '" ++ taskId ++ "' not found." }
        state := st }
  | some _ =>
      { status := { success := true, message := "Task '" ++ taskId ++ "' deleted successfully." }
        state := { st with
                     tasks := removeKey st.tasks taskId
                     orchestrators := removeKey st.orchestrators taskId }
        events := [⟨.task_deleted, taskId, .empty⟩] }

end GlobalIngestionLifecycleManager

/-- A minimal enabled manual-trigger task stored under id `t1`, used by
concrete witnesses. -/
def wTask1 : IngestionTaskDefinition :=
  { id := "t1", enabled := true, trigger := .manual, source := { pluginType := "src" } }

/-- A store holding `wTask1` with its source plugin registered. -/
def wStore1 : ManagerState :=
  { tasks := [("t1", wTask1)], sourcePlugins := ["src"] }

/-- A task identical to `wTask1` but with a cron trigger, stored under
`tc`; used to witness that non-manual triggers are also manually
triggerable. -/
def wTaskCron : IngestionTaskDefinition :=
  { id := "tc", enabled := true, trigger := .cron "*/1 * * * *",
    source := { pluginType := "src" } }

/-- Store holding `wTaskCron`. -/
def wStoreCron : ManagerState :=
  { tasks := [("tc", wTaskCron)], sourcePlugins := ["src"] }

/-- Execution environment whose orchestrator run returns plain success. -/
def wEnvOk : ExecEnv :=
  { execute := fun _ _ => ([], .ok { success := true }) }

/-- Execution environment whose orchestrator run throws. -/
def wEnvThrow : ExecEnv :=
  { execute := fun _ _ => ([], .thrown "boom") }

/-- An orchestrator instance cached for `t1`, built from the pre-update
source config. -/
def wOrch : OrchInstance :=
  { taskId := "t1", sourcePluginType := "src", sourceConfig := .str "old" }

/-- `wStore1` with `wOrch` cached for `t1`. -/
def wStoreCached : ManagerState :=
  { tasks := [("t1", wTask1)], sourcePlugins := ["src"],
    orchestrators := [("t1", wOrch)] }

/-- An update that replaces the source config. -/
def wUpd : GlobalIngestionLifecycleManager.TaskUpdates :=
  { source := some { pluginType := "src", config := .str "new" } }

/-- Orchestrator collaborators for an empty-transform run with a
destination configured: the source succeeds with one raw item, the
transformer returns `[]`, and the destination would fail if it were ever
reached. -/
def wOEnvEmpty : OrchEnv :=
  { sourceExec := .ok { success := true, data := some (.obj [("data", .arr [.str "x"])]) },
    transform := fun _ _ => .ok [],
    hasDestination := true,
    processData := fun _ => .thrown "destination must not be reached" }

/-- Orchestrator collaborators for a successful run whose transformer is
the repository's passthrough transformer applied to a record that carries
no `fetchedAt` (as the repository's transformers never set one). -/
def wOEnvPassthrough : OrchEnv :=
  { sourceExec := .ok
      { success := true
        data := some (.obj [("data", .arr [.obj [("id", .str "r1")]])]) },
    fetchedAtMs := 5,
    transform := fun _ _ =>
      .ok (passthroughTransformer [{ id := "r1", content := .str "x" }]) }

/-- Orchestrator collaborators for a trivial successful run (source
succeeds with no data, transformer yields nothing). -/
def wOEnvTrivial : OrchEnv :=
  { sourceExec := .ok { success := true } }

/-- Manager execution environment whose orchestrator call is the full
orchestrator model under `wOEnvTrivial`, emitting on the shared bus. -/
def wEnvCombined : ExecEnv :=
  { execute := fun _ q =>
      ((IngestionOrchestrator.executeTask wOEnvTrivial "t1" q).events,
        .ok (IngestionOrchestrator.executeTask wOEnvTrivial "t1" q).status) }

/-- Derived characterization: whether one pass of the cron loop executes a
task — enabled, cron trigger, parseable expression, and the due condition
of line 262 holds. -/
def cronWillExecute (env : ExecEnv) (now : Int) (t : IngestionTaskDefinition) : Bool :=
  t.enabled &&
    (match t.trigger with
     | .cron e =>
         (match env.cronPrev e now with
          | .ok pr => cronDue now t.lastRun pr
          | .thrown _ => false)
     | _ => false)

/-- Two enabled webhook tasks sharing endpoint `X`. -/
def wTaskWh1 : IngestionTaskDefinition :=
  { id := "w1", enabled := true, trigger := .webhook "X", source := { pluginType := "src" } }

/-- Second webhook task on endpoint `X`. -/
def wTaskWh2 : IngestionTaskDefinition :=
  { id := "w2", enabled := true, trigger := .webhook "X", source := { pluginType := "src" } }

/-- Store holding both webhook tasks with their source registered. -/
def wStoreWh : ManagerState :=
  { tasks := [("w1", wTaskWh1), ("w2", wTaskWh2)], sourcePlugins := ["src"] }

/-- Cron environment for the every-minute expression: the previous fire
time is the start of the current minute, executions succeed, and the wall
clock reads 60500 ms. -/
def wCronEnv : ExecEnv :=
  { execute := fun _ _ => ([], .ok { success := true }),
    cronPrev := fun _ now => .ok (now - now % 60000),
    wallClock := fun _ => 60500 }

-- end of concrete witness inputs

theorem lookupKey_setKey_self {α : Type} (l : List (String × α)) (key : String) (v : α) :
    lookupKey (setKey l key v) key = some v := by
  induction l with
  | nil => simp [setKey, lookupKey]
  | cons hd tl ih =>
      obtain ⟨k, w⟩ := hd
      by_cases h : k = key
      · simp [setKey, lookupKey, h]
      · simp [setKey, lookupKey, h, ih]

theorem lookupKey_setKey_ne {α : Type} (l : List (String × α)) (key key' : String) (v : α)
    (h : key ≠ key') : lookupKey (setKey l key v) key' = lookupKey l key' := by
  induction l with
  | nil => simp [setKey, lookupKey, h]
  | cons hd tl ih =>
      obtain ⟨k, w⟩ := hd
      by_cases hk : k = key
      · subst hk
        simp [setKey, lookupKey, h]
      · simp [setKey, lookupKey, hk, ih]

namespace GlobalIngestionLifecycleManager

theorem afterOrch_spec (env : ExecEnv) (st : ManagerState) (k : Nat) (taskId : String)
    (task : IngestionTaskDefinition) (p : Option JVal) (orch : OrchInstance) :
    ∃ s : GSStatus,
      (afterOrch env st k taskId task p orch).outcome = .ok s ∧
      (afterOrch env st k taskId task p orch).orchCalls = [(orch, p)] ∧
      (afterOrch env st k taskId task p orch).execCalls = [] ∧
      (afterOrch env st k taskId task p orch).events =
        ⟨.task_triggered, taskId, .empty⟩ :: ((env.execute orch p).1 ++
          [⟨if s.success then .task_completed else .task_failed, taskId, .status s⟩]) ∧
      lookupKey (afterOrch env st k taskId task p orch).state.tasks taskId =
        some { task with
                 currentStatus := some (if s.success then .COMPLETED else .FAILED)
                 lastRun := some (env.wallClock k)
                 lastRunStatus := some s } ∧
      ((env.execute orch p).2 = .ok s ∨
        ∃ m, (env.execute orch p).2 = .thrown m ∧
          s = { success := false, message := "Unhandled error during task execution: " ++ m }) := by
  unfold afterOrch
  rcases h : (env.execute orch p).2 with s0 | m
  · refine ⟨s0, ?_⟩
    by_cases hs : s0.success
    · simp [h, hs, setTask, lookupKey_setKey_self, finallyAdjust]
    · simp [h, hs, setTask, lookupKey_setKey_self, finallyAdjust]
  · refine ⟨{ success := false, message := "Unhandled error during task execution: " ++ m }, ?_⟩
    simp [h, setTask, lookupKey_setKey_self, finallyAdjust]

end GlobalIngestionLifecycleManager

namespace GlobalIngestionLifecycleManager

theorem runWithOrchestrator_spec (env : ExecEnv) (st : ManagerState) (k : Nat)
    (taskId : String) (task : IngestionTaskDefinition) (p : Option JVal)
    (hreach : (lookupKey st.orchestrators taskId).isSome = true ∨
      (env.sourceCtor task.source.pluginType task.source.config = .ok () ∧
       ∀ d, task.destination = some d → env.destInit d.pluginType d.config = .ok ())) :
    ∃ orch st1, runWithOrchestrator env st k taskId task p =
      afterOrch env st1 k taskId task p orch := by
  unfold runWithOrchestrator
  rcases hc : lookupKey st.orchestrators taskId with _ | orch
  · rcases hreach with hsome | ⟨hctor, hdest⟩
    · simp [hc] at hsome
    · rcases hd : task.destination with _ | d
      · simp only [hc, hctor, hd]
        exact ⟨_, _, rfl⟩
      · simp only [hc, hctor, hd, hdest d hd]
        exact ⟨_, _, rfl⟩
  · simp only [hc]
    exact ⟨orch, st, rfl⟩

theorem execIngestion_run_spec (env : ExecEnv) (st : ManagerState) (k : Nat)
    (taskId : String) (task : IngestionTaskDefinition) (p : Option JVal)
    (hen : task.enabled = true)
    (hsrc : st.sourcePlugins.contains task.source.pluginType = true)
    (hdst : ∀ d, task.destination = some d →
      st.destinationPlugins.contains d.pluginType = true)
    (hreach : (lookupKey st.orchestrators taskId).isSome = true ∨
      (env.sourceCtor task.source.pluginType task.source.config = .ok () ∧
       ∀ d, task.destination = some d → env.destInit d.pluginType d.config = .ok ())) :
    ∃ orch s,
      (_executeIngestionTask env st k taskId task p).outcome = .ok s ∧
      (_executeIngestionTask env st k taskId task p).execCalls = [(taskId, p)] ∧
      (_executeIngestionTask env st k taskId task p).orchCalls = [(orch, p)] ∧
      (_executeIngestionTask env st k taskId task p).events =
        ⟨.task_triggered, taskId, .empty⟩ :: ((env.execute orch p).1 ++
          [⟨if s.success then .task_completed else .task_failed, taskId, .status s⟩]) ∧
      lookupKey (_executeIngestionTask env st k taskId task p).state.tasks taskId =
        some { task with
                 currentStatus := some (if s.success then .COMPLETED else .FAILED)
                 lastRun := some (env.wallClock k)
                 lastRunStatus := some s } ∧
      ((env.execute orch p).2 = .ok s ∨
        ∃ m, (env.execute orch p).2 = .thrown m ∧
          s = { success := false, message := "Unhandled error during task execution: " ++ m }) := by
  obtain ⟨orch, st1, hrun⟩ := runWithOrchestrator_spec env st k taskId task p hreach
  obtain ⟨s, h1, h2, h3, h4, h5, h6⟩ := afterOrch_spec env st1 k taskId task p orch
  refine ⟨orch, s, ?_⟩
  have hsrcm : task.source.pluginType ∈ st.sourcePlugins := by simpa using hsrc
  unfold _executeIngestionTask
  rcases hd : task.destination with _ | d
  · simp [hen, hsrcm, hd, hrun, h1, h2, h3, h4, h5, h6]
  · have hdstm : d.pluginType ∈ st.destinationPlugins := by simpa using hdst d hd
    simp [hen, hsrcm, hdstm, hd, hrun, h1, h2, h3, h4, h5, h6]

end GlobalIngestionLifecycleManager

namespace GlobalIngestionLifecycleManager

theorem afterOrch_execCalls (env : ExecEnv) (st : ManagerState) (k : Nat) (taskId : String)
    (task : IngestionTaskDefinition) (p : Option JVal) (orch : OrchInstance) :
    (afterOrch env st k taskId task p orch).execCalls = [] := by
  obtain ⟨s, _, _, h3, _, _, _⟩ := afterOrch_spec env st k taskId task p orch
  exact h3

theorem runWithOrchestrator_execCalls (env : ExecEnv) (st : ManagerState) (k : Nat)
    (taskId : String) (task : IngestionTaskDefinition) (p : Option JVal) :
    (runWithOrchestrator env st k taskId task p).execCalls = [] := by
  unfold runWithOrchestrator
  rcases hc : lookupKey st.orchestrators taskId with _ | orch
  · rcases hctor : env.sourceCtor task.source.pluginType task.source.config with _ | m
    · rcases hd : task.destination with _ | d
      · simp [hc, hctor, hd, afterOrch_execCalls]
      · rcases hdi : env.destInit d.pluginType d.config with _ | m
        · simp [hc, hctor, hd, hdi, afterOrch_execCalls]
        · simp [hc, hctor, hd, hdi]
    · simp [hc, hctor]
  · simp [hc, afterOrch_execCalls]

theorem execIngestion_execCalls (env : ExecEnv) (st : ManagerState) (k : Nat)
    (taskId : String) (task : IngestionTaskDefinition) (p : Option JVal) :
    (_executeIngestionTask env st k taskId task p).execCalls = [(taskId, p)] := by
  unfold _executeIngestionTask
  split
  · rfl
  · split
    · rfl
    · split
      · split
        · rfl
        · simp [runWithOrchestrator_execCalls]
      · simp [runWithOrchestrator_execCalls]

end GlobalIngestionLifecycleManager

theorem orch_terminal_counts (oenv : OrchEnv) (taskId : String) (p : Option JVal) :
    countName .task_completed (IngestionOrchestrator.executeTask oenv taskId p).events =
      (if (IngestionOrchestrator.executeTask oenv taskId p).status.success then 1 else 0) ∧
    countName .task_failed (IngestionOrchestrator.executeTask oenv taskId p).events =
      (if (IngestionOrchestrator.executeTask oenv taskId p).status.success then 0 else 1) := by
  cases hb : oenv.sourceBound && oenv.transformerBound
  · simp [IngestionOrchestrator.executeTask, hb, countName]
  · cases hic : oenv.initClient with
    | thrown m => simp [IngestionOrchestrator.executeTask, hb, hic, countName, topCatchStatus]
    | ok u =>
      cases hse : oenv.sourceExec with
      | thrown m =>
          simp [IngestionOrchestrator.executeTask, hb, hic, hse, countName, topCatchStatus]
      | ok src =>
        cases hss : src.success
        · simp [IngestionOrchestrator.executeTask, hb, hic, hse, hss, countName]
        · cases htr : oenv.transform (extractRaw src.data)
            (payloadWithFetchedAt p (dateToISOString oenv.fetchedAtMs)) with
          | thrown m =>
              simp [IngestionOrchestrator.executeTask, hb, hic, hse, hss, htr, countName,
                topCatchStatus]
          | ok td =>
            by_cases hlen : td.length = 0
            · simp [IngestionOrchestrator.executeTask, hb, hic, hse, hss, htr, hlen, countName]
            · cases hd : oenv.hasDestination
              · simp [IngestionOrchestrator.executeTask, hb, hic, hse, hss, htr, hlen, hd,
                  countName, orchSuccessStatus]
              · cases hpd : oenv.processData td with
                | thrown m =>
                    simp [IngestionOrchestrator.executeTask, hb, hic, hse, hss, htr, hlen, hd,
                      hpd, countName]
                | ok sendResult =>
                  cases hsr : sendResult.success
                  · simp [IngestionOrchestrator.executeTask, hb, hic, hse, hss, htr, hlen, hd,
                      hpd, hsr, countName]
                  · simp [IngestionOrchestrator.executeTask, hb, hic, hse, hss, htr, hlen, hd,
                      hpd, hsr, countName, orchSuccessStatus]

open GlobalIngestionLifecycleManager in
/-- C5: `scheduleTask` with an explicit id that already exists in the store
returns a failure Status (the operation is total: it does not throw) and
leaves the manager state entirely unchanged — in particular the stored
definition under that id with its `currentStatus`, `lastRun` and
`lastRunStatus`, the set of stored task ids, and the cached orchestrators
— and emits no event. -/
theorem C5_schedule_duplicate_id (st : ManagerState) (d : IngestionTaskDefinition)
    (generatedId : String) (hid : d.id ≠ "") (hdup : containsKey st.tasks d.id = true) :
    (scheduleTask st d generatedId).status =
      { success := false, message := "Task '" ++ d.id ++ "' already exists." } ∧
    (scheduleTask st d generatedId).state = st ∧
    (scheduleTask st d generatedId).events = [] := by
  unfold GlobalIngestionLifecycleManager.scheduleTask
  simp [hid, hdup]

open GlobalIngestionLifecycleManager in
/-- Witness for C5: scheduling a duplicate of the stored task `t1`. -/
theorem C5_schedule_duplicate_id_witness :
    (wTask1.id ≠ "" ∧ containsKey wStore1.tasks wTask1.id = true) ∧
    (scheduleTask wStore1 wTask1 "generated").state = wStore1 :=
  ⟨⟨by decide, by rfl⟩,
    (C5_schedule_duplicate_id wStore1 wTask1 "generated" (by decide) (by rfl)).2.1⟩

open GlobalIngestionLifecycleManager in
/-- C10: `triggerManualTask` executes any enabled stored task regardless of
its trigger type — the only preconditions are that the id is known and the
task enabled — by handing it to the shared private execution routine,
which records exactly one invocation for it. -/
theorem C10_manual_trigger_any_trigger_type (env : ExecEnv) (st : ManagerState) (k : Nat)
    (taskId : String) (p : Option JVal) (task : IngestionTaskDefinition)
    (hlook : lookupKey st.tasks taskId = some task) (hen : task.enabled = true) :
    triggerManualTask env st k taskId p = _executeIngestionTask env st k task.id task p ∧
    (triggerManualTask env st k taskId p).execCalls = [(task.id, p)] := by
  unfold GlobalIngestionLifecycleManager.triggerManualTask
  simp [hlook, hen, execIngestion_execCalls]

open GlobalIngestionLifecycleManager in
/-- Witness for C10 on a cron-trigger task invoked manually. -/
theorem C10_manual_trigger_any_trigger_type_witness :
    (lookupKey wStoreCron.tasks "tc" = some wTaskCron ∧ wTaskCron.enabled = true) ∧
    (triggerManualTask wEnvOk wStoreCron 0 "tc" none).execCalls = [("tc", none)] :=
  ⟨⟨rfl, rfl⟩,
    (C10_manual_trigger_any_trigger_type wEnvOk wStoreCron 0 "tc" none wTaskCron rfl rfl).2⟩

open GlobalIngestionLifecycleManager in
/-- C2: for every execution that reaches the orchestrator call — whatever
the orchestrator does (returns a success Status, returns a failure Status,
or throws) — `_executeIngestionTask` returns normally with a Status, and
the stored task is never left RUNNING: its `currentStatus` is COMPLETED
exactly when the returned status is a success and FAILED otherwise, with
`lastRunStatus` carrying the exception-derived Status (whose message
carries the exception's message) when the orchestrator threw. -/
theorem C2_no_task_left_running (env : ExecEnv) (st : ManagerState) (k : Nat)
    (taskId : String) (task : IngestionTaskDefinition) (p : Option JVal)
    (oev : List Event) (oc : CallResult GSStatus)
    (henv : env.execute = fun _ _ => (oev, oc))
    (hen : task.enabled = true)
    (hsrc : st.sourcePlugins.contains task.source.pluginType = true)
    (hdst : ∀ d, task.destination = some d →
      st.destinationPlugins.contains d.pluginType = true)
    (hreach : (lookupKey st.orchestrators taskId).isSome = true ∨
      (env.sourceCtor task.source.pluginType task.source.config = .ok () ∧
       ∀ d, task.destination = some d → env.destInit d.pluginType d.config = .ok ())) :
    ∃ s task1,
      (_executeIngestionTask env st k taskId task p).outcome = .ok s ∧
      lookupKey (_executeIngestionTask env st k taskId task p).state.tasks taskId =
        some task1 ∧
      task1.currentStatus ≠ some .RUNNING ∧
      task1.currentStatus = some (if s.success then .COMPLETED else .FAILED) ∧
      task1.lastRunStatus = some s ∧
      (oc = .ok s ∨ ∃ m, oc = .thrown m ∧
        s = { success := false, message := "Unhandled error during task execution: " ++ m }) := by
  obtain ⟨orch, s, h1, h2, h3, h4, h5, h6⟩ :=
    execIngestion_run_spec env st k taskId task p hen hsrc hdst hreach
  rw [henv] at h6
  refine ⟨s, _, h1, h5, ?_, rfl, rfl, h6⟩
  by_cases hs : s.success <;> simp [hs]

open GlobalIngestionLifecycleManager in
/-- Witness for C2 with an orchestrator call that throws. -/
theorem C2_no_task_left_running_witness :
    (wTask1.enabled = true ∧ wStore1.sourcePlugins.contains wTask1.source.pluginType = true) ∧
    ∃ s task1,
      (_executeIngestionTask wEnvThrow wStore1 0 "t1" wTask1 none).outcome = .ok s ∧
      lookupKey (_executeIngestionTask wEnvThrow wStore1 0 "t1" wTask1 none).state.tasks "t1" =
        some task1 ∧
      task1.currentStatus ≠ some .RUNNING ∧
      task1.currentStatus = some (if s.success then .COMPLETED else .FAILED) ∧
      task1.lastRunStatus = some s ∧
      ((.thrown "boom" : CallResult GSStatus) = .ok s ∨
        ∃ m, (.thrown "boom" : CallResult GSStatus) = .thrown m ∧
          s = { success := false, message := "Unhandled error during task execution: " ++ m }) :=
  ⟨⟨rfl, rfl⟩,
    C2_no_task_left_running wEnvThrow wStore1 0 "t1" wTask1 none [] (.thrown "boom")
      rfl rfl rfl (fun d h => by simp [wTask1] at h)
      (Or.inr ⟨rfl, fun d h => by simp [wTask1] at h⟩)⟩

namespace GlobalIngestionLifecycleManager

theorem afterOrch_orchCalls (env : ExecEnv) (st : ManagerState) (k : Nat) (taskId : String)
    (task : IngestionTaskDefinition) (p : Option JVal) (orch : OrchInstance) :
    (afterOrch env st k taskId task p orch).orchCalls = [(orch, p)] := by
  obtain ⟨s, _, h2, _, _, _, _⟩ := afterOrch_spec env st k taskId task p orch
  exact h2

theorem execIngestion_cached_orch (env : ExecEnv) (st : ManagerState) (k : Nat)
    (taskId : String) (task : IngestionTaskDefinition) (p : Option JVal)
    (orch : OrchInstance)
    (hc : lookupKey st.orchestrators taskId = some orch)
    (hen : task.enabled = true)
    (hsrc : st.sourcePlugins.contains task.source.pluginType = true)
    (hdst : ∀ d, task.destination = some d →
      st.destinationPlugins.contains d.pluginType = true) :
    (_executeIngestionTask env st k taskId task p).orchCalls = [(orch, p)] := by
  have hsrcm : task.source.pluginType ∈ st.sourcePlugins := by simpa using hsrc
  unfold _executeIngestionTask runWithOrchestrator
  rcases hd : task.destination with _ | d
  · simp [hen, hsrcm, hd, hc, afterOrch_orchCalls]
  · have hdstm : d.pluginType ∈ st.destinationPlugins := by simpa using hdst d hd
    simp [hen, hsrcm, hdstm, hd, hc, afterOrch_orchCalls]

end GlobalIngestionLifecycleManager

open GlobalIngestionLifecycleManager in
/-- C8: `updateTask` leaves the orchestrator cache untouched (only
`deleteTask` discards an entry), so an execution of the task after an
update — whatever fields the update changed, including `source.pluginType`,
`source.config` or `destination` — still runs against the cached instance
`orch`, the one constructed from the pre-update definition. -/
theorem C8_update_keeps_cached_orchestrator (env : ExecEnv) (st : ManagerState)
    (k : Nat) (taskId : String) (p : Option JVal) (task : IngestionTaskDefinition)
    (u : TaskUpdates) (orch : OrchInstance)
    (hlook : lookupKey st.tasks taskId = some task)
    (hc : lookupKey st.orchestrators taskId = some orch)
    (hen : (applyUpdates task u).enabled = true)
    (hsrc : st.sourcePlugins.contains (applyUpdates task u).source.pluginType = true)
    (hdst : ∀ d, (applyUpdates task u).destination = some d →
      st.destinationPlugins.contains d.pluginType = true) :
    (updateTask st taskId u).state.orchestrators = st.orchestrators ∧
    (deleteTask st taskId).state.orchestrators = removeKey st.orchestrators taskId ∧
    lookupKey (updateTask st taskId u).state.tasks taskId = some (applyUpdates task u) ∧
    (_executeIngestionTask env (updateTask st taskId u).state k taskId
      (applyUpdates task u) p).orchCalls = [(orch, p)] := by
  have hstate : (updateTask st taskId u).state =
      { st with tasks := setKey st.tasks taskId (applyUpdates task u) } := by
    unfold GlobalIngestionLifecycleManager.updateTask
    rw [hlook]
  refine ⟨by rw [hstate], ?_, ?_, ?_⟩
  · unfold GlobalIngestionLifecycleManager.deleteTask
    rw [hlook]
  · rw [hstate]
    exact lookupKey_setKey_self st.tasks taskId (applyUpdates task u)
  · rw [hstate]
    exact execIngestion_cached_orch env _ k taskId (applyUpdates task u) p orch hc hen hsrc hdst

open GlobalIngestionLifecycleManager in
/-- Witness for C8: updating `t1`'s source config does not evict the cached
instance built from the old config, and the next execution uses it. -/
theorem C8_update_keeps_cached_orchestrator_witness :
    (lookupKey wStoreCached.tasks "t1" = some wTask1 ∧
      lookupKey wStoreCached.orchestrators "t1" = some wOrch ∧
      (applyUpdates wTask1 wUpd).enabled = true) ∧
    (_executeIngestionTask wEnvOk (updateTask wStoreCached "t1" wUpd).state 0 "t1"
      (applyUpdates wTask1 wUpd) none).orchCalls = [(wOrch, none)] :=
  ⟨⟨rfl, rfl, rfl⟩,
    (C8_update_keeps_cached_orchestrator wEnvOk wStoreCached 0 "t1" none wTask1 wUpd wOrch
      rfl rfl rfl rfl (fun d h => by simp [applyUpdates, wUpd, wTask1] at h)).2.2.2⟩

/-- C6: when the source succeeds and the transformer returns an empty
record list, `executeTask` short-circuits to a success Status carrying
`itemsProcessed: 0`, emits no DATA_PROCESSED event and never calls the
destination's `processData` — the statement leaves `oenv.hasDestination`
free, so this holds even when a destination is configured. -/
theorem C6_empty_transform_short_circuit (oenv : OrchEnv) (taskId : String)
    (p : Option JVal) (src : GSStatus)
    (hsb : oenv.sourceBound = true) (htb : oenv.transformerBound = true)
    (hic : oenv.initClient = .ok ()) (hse : oenv.sourceExec = .ok src)
    (hss : src.success = true)
    (htr : oenv.transform (extractRaw src.data)
      (payloadWithFetchedAt p (dateToISOString oenv.fetchedAtMs)) = .ok []) :
    (IngestionOrchestrator.executeTask oenv taskId p).status =
      { success := true, code := some 200,
        message := "Ingestion task completed: No data from source.",
        data := some (.obj [("itemsProcessed", .num 0)]) } ∧
    countName .data_processed (IngestionOrchestrator.executeTask oenv taskId p).events = 0 ∧
    (IngestionOrchestrator.executeTask oenv taskId p).destCalls = [] := by
  simp [IngestionOrchestrator.executeTask, hsb, htb, hic, hse, hss, htr, countName]

/-- Witness for C6: empty transform with a destination configured. -/
theorem C6_empty_transform_short_circuit_witness :
    (wOEnvEmpty.sourceBound = true ∧ wOEnvEmpty.hasDestination = true) ∧
    countName .data_processed
      (IngestionOrchestrator.executeTask wOEnvEmpty "t1" none).events = 0 ∧
    (IngestionOrchestrator.executeTask wOEnvEmpty "t1" none).destCalls = [] :=
  ⟨⟨rfl, rfl⟩,
    (C6_empty_transform_short_circuit wOEnvEmpty "t1" none
      { success := true, data := some (.obj [("data", .arr [.str "x"])]) }
      rfl rfl rfl rfl rfl rfl).2⟩

/-- C7 (counterexample to the original claim): a successful execution in
which the transformer is the repository's passthrough transformer — a
legal `IngestionDataTransformer` — produces a record whose `fetchedAt` is
absent, not the single timestamp the Orchestrator captured (5), because
the Orchestrator only places `fetchedAt` into the payload handed to the
transformer and never writes it into the records. -/
theorem C7_fetchedAt_counterexample :
    (IngestionOrchestrator.executeTask wOEnvPassthrough "t1" none).status.success = true ∧
    (IngestionOrchestrator.executeTask wOEnvPassthrough "t1" none).events.get? 1 =
      some ⟨.data_transformed, "t1",
        .records (passthroughTransformer [{ id := "r1", content := .str "x" }])⟩ ∧
    (passthroughTransformer [{ id := "r1", content := .str "x" }]).map IngestionData.fetchedAt ≠
      [some (.str (dateToISOString wOEnvPassthrough.fetchedAtMs))] := by
  refine ⟨rfl, rfl, ?_⟩
  simp [passthroughTransformer]

/-- C7 (amended): within one `executeTask` invocation with a successful
source, the orchestrator captures a single `fetchedAt` timestamp once the
source returns, invokes the transformer exactly once, and passes that
identical value to it as `payload.fetchedAt`; consequently, whenever the
transformer copies `payload.fetchedAt` into each record it returns, all
records of the run carry the identical value. -/
theorem C7_single_fetchedAt_in_payload (oenv : OrchEnv) (taskId : String)
    (p : Option JVal) (src : GSStatus)
    (hsb : oenv.sourceBound = true) (htb : oenv.transformerBound = true)
    (hic : oenv.initClient = .ok ()) (hse : oenv.sourceExec = .ok src)
    (hss : src.success = true) :
    (IngestionOrchestrator.executeTask oenv taskId p).transformCalls =
      [(extractRaw src.data, payloadWithFetchedAt p (dateToISOString oenv.fetchedAtMs))] ∧
    (payloadWithFetchedAt p (dateToISOString oenv.fetchedAtMs)).getField "fetchedAt" =
      some (.str (dateToISOString oenv.fetchedAtMs)) ∧
    (∀ rs, oenv.transform (extractRaw src.data)
        (payloadWithFetchedAt p (dateToISOString oenv.fetchedAtMs)) = .ok rs →
      (∀ raw q rs0 r, oenv.transform raw q = .ok rs0 → r ∈ rs0 →
        r.fetchedAt = q.getField "fetchedAt") →
      ∀ r ∈ rs, r.fetchedAt = some (.str (dateToISOString oenv.fetchedAtMs))) := by
  have hfield : (payloadWithFetchedAt p (dateToISOString oenv.fetchedAtMs)).getField
      "fetchedAt" = some (.str (dateToISOString oenv.fetchedAtMs)) := by
    unfold payloadWithFetchedAt
    rcases p with _ | v
    · simp [JVal.getField, lookupKey]
    · cases v <;> simp [JVal.getField, lookupKey, lookupKey_setKey_self]
  refine ⟨?_, hfield, ?_⟩
  · cases htr : oenv.transform (extractRaw src.data)
      (payloadWithFetchedAt p (dateToISOString oenv.fetchedAtMs)) with
    | thrown m => simp [IngestionOrchestrator.executeTask, hsb, htb, hic, hse, hss, htr]
    | ok td =>
      by_cases hlen : td.length = 0
      · simp [IngestionOrchestrator.executeTask, hsb, htb, hic, hse, hss, htr, hlen]
      · cases hd : oenv.hasDestination
        · simp [IngestionOrchestrator.executeTask, hsb, htb, hic, hse, hss, htr, hlen, hd]
        · cases hpd : oenv.processData td with
          | thrown m =>
              simp [IngestionOrchestrator.executeTask, hsb, htb, hic, hse, hss, htr, hlen,
                hd, hpd]
          | ok sr =>
              cases hsr : sr.success <;>
                simp [IngestionOrchestrator.executeTask, hsb, htb, hic, hse, hss, htr, hlen,
                  hd, hpd, hsr]
  · intro rs htr hcopy r hr
    rw [hcopy _ _ _ r htr hr, hfield]

/-- Witness for the amended C7 on the passthrough run. -/
theorem C7_single_fetchedAt_in_payload_witness :
    (wOEnvPassthrough.sourceBound = true ∧ wOEnvPassthrough.initClient = .ok ()) ∧
    (IngestionOrchestrator.executeTask wOEnvPassthrough "t1" none).transformCalls =
      [(extractRaw (some (.obj [("data", .arr [.obj [("id", .str "r1")]])])),
        payloadWithFetchedAt none (dateToISOString wOEnvPassthrough.fetchedAtMs))] :=
  ⟨⟨rfl, rfl⟩,
    (C7_single_fetchedAt_in_payload wOEnvPassthrough "t1" none
      { success := true, data := some (.obj [("data", .arr [.obj [("id", .str "r1")]])]) }
      rfl rfl rfl rfl rfl).1⟩

theorem countTerminal_eq_counts (evs : List Event) :
    countTerminal evs = countName .task_completed evs + countName .task_failed evs := by
  induction evs with
  | nil => rfl
  | cons e tl ih =>
      obtain ⟨n, tid, pl⟩ := e
      cases n <;> simp [countTerminal, countName, List.filter] at * <;> omega

open GlobalIngestionLifecycleManager in
/-- C1 (amended): for every invocation routed through
`_executeIngestionTask` that reaches `IngestionOrchestrator.executeTask`,
and for every pipeline outcome (success, source-returned failure,
transformer throw, destination-returned failure or throw, unexpected
exception at any stage, missing source/transformer precondition), exactly
TWO terminal events are emitted on the shared event bus — the orchestrator
emits exactly one and the manager emits one more — and both match the
returned status: both TASK_COMPLETED when it is a success, both
TASK_FAILED otherwise. -/
theorem C1_two_terminal_events_per_invocation (oenv : OrchEnv) (env : ExecEnv)
    (st : ManagerState) (k : Nat) (taskId : String) (task : IngestionTaskDefinition)
    (p : Option JVal)
    (henv : env.execute = fun _ q =>
      ((IngestionOrchestrator.executeTask oenv taskId q).events,
        .ok (IngestionOrchestrator.executeTask oenv taskId q).status))
    (hen : task.enabled = true)
    (hsrc : st.sourcePlugins.contains task.source.pluginType = true)
    (hdst : ∀ d, task.destination = some d →
      st.destinationPlugins.contains d.pluginType = true)
    (hreach : (lookupKey st.orchestrators taskId).isSome = true ∨
      (env.sourceCtor task.source.pluginType task.source.config = .ok () ∧
       ∀ d, task.destination = some d → env.destInit d.pluginType d.config = .ok ())) :
    ∃ s, (_executeIngestionTask env st k taskId task p).outcome = .ok s ∧
      countName .task_completed (_executeIngestionTask env st k taskId task p).events =
        (if s.success then 2 else 0) ∧
      countName .task_failed (_executeIngestionTask env st k taskId task p).events =
        (if s.success then 0 else 2) ∧
      countTerminal (_executeIngestionTask env st k taskId task p).events = 2 := by
  obtain ⟨orch, s, h1, h2, h3, h4, h5, h6⟩ :=
    execIngestion_run_spec env st k taskId task p hen hsrc hdst hreach
  rw [henv] at h4 h6
  have hs : s = (IngestionOrchestrator.executeTask oenv taskId p).status := by
    rcases h6 with h | ⟨m, hm, _⟩
    · simpa using h.symm
    · simp at hm
  obtain ⟨hoc, hof⟩ := orch_terminal_counts oenv taskId p
  rw [← hs] at hoc hof
  simp only [countName] at hoc hof
  have hcomp : countName .task_completed
      (_executeIngestionTask env st k taskId task p).events = (if s.success then 2 else 0) := by
    rw [h4]
    by_cases hss : s.success <;>
      simp [countName, List.filter_append, hss, hoc, hof]
  have hfail : countName .task_failed
      (_executeIngestionTask env st k taskId task p).events = (if s.success then 0 else 2) := by
    rw [h4]
    by_cases hss : s.success <;>
      simp [countName, List.filter_append, hss, hoc, hof]
  refine ⟨s, h1, hcomp, hfail, ?_⟩
  rw [countTerminal_eq_counts, hcomp, hfail]
  by_cases hss : s.success <;> simp [hss]

open GlobalIngestionLifecycleManager in
/-- C1 (counterexample to the original claim): one invocation routed
through `_executeIngestionTask` calling the orchestrator — a plain success
run — puts TWO terminal events on the shared event bus (the orchestrator's
TASK_COMPLETED and the manager's TASK_COMPLETED), not exactly one. -/
theorem C1_one_terminal_event_counterexample :
    countTerminal (_executeIngestionTask wEnvCombined wStore1 0 "t1" wTask1 none).events = 2 ∧
    countTerminal (_executeIngestionTask wEnvCombined wStore1 0 "t1" wTask1 none).events ≠ 1 := by
  constructor
  · rfl
  · intro h
    rw [show countTerminal
        (_executeIngestionTask wEnvCombined wStore1 0 "t1" wTask1 none).events = 2 from rfl] at h
    exact absurd h (by decide)

open GlobalIngestionLifecycleManager in
/-- Witness for the amended C1 on the concrete combined run. -/
theorem C1_two_terminal_events_per_invocation_witness :
    (wTask1.enabled = true ∧
      wStore1.sourcePlugins.contains wTask1.source.pluginType = true) ∧
    ∃ s, (_executeIngestionTask wEnvCombined wStore1 0 "t1" wTask1 none).outcome = .ok s ∧
      countName .task_completed
        (_executeIngestionTask wEnvCombined wStore1 0 "t1" wTask1 none).events =
        (if s.success then 2 else 0) ∧
      countName .task_failed
        (_executeIngestionTask wEnvCombined wStore1 0 "t1" wTask1 none).events =
        (if s.success then 0 else 2) ∧
      countTerminal (_executeIngestionTask wEnvCombined wStore1 0 "t1" wTask1 none).events = 2 :=
  ⟨⟨rfl, rfl⟩,
    C1_two_terminal_events_per_invocation wOEnvTrivial wEnvCombined wStore1 0 "t1" wTask1
      none rfl rfl rfl (fun d h => by simp [wTask1] at h)
      (Or.inr ⟨rfl, fun d h => by simp [wTask1] at h⟩)⟩

theorem all_success_iff_no_failed (rs : List (String × GSStatus)) :
    rs.length - (rs.filter (fun r => r.2.success)).length = 0 ↔
      ∀ r ∈ rs, r.2.success = true := by
  have hle := List.length_filter_le (fun r => r.2.success) rs
  have hlt := List.length_filter_lt_length_iff_exists (l := rs) (p := fun r => r.2.success)
  constructor
  · intro h r hr
    by_contra hb
    have : (rs.filter (fun r => r.2.success)).length < rs.length :=
      hlt.mpr ⟨r, hr, by simpa using hb⟩
    omega
  · intro h
    have : ¬ (rs.filter (fun r => r.2.success)).length < rs.length := by
      intro hl
      obtain ⟨r, hr, hb⟩ := hlt.mp hl
      exact hb (by simpa using h r hr)
    omega

namespace GlobalIngestionLifecycleManager

theorem webhookLoop_spec (env : ExecEnv) (payload : JVal) :
    ∀ (tasks : List IngestionTaskDefinition) (acc : LoopAcc),
      (webhookLoop env payload tasks acc).thrownMsg = none →
      (webhookLoop env payload tasks acc).execCalls =
        acc.execCalls ++ tasks.map (fun t => (t.id, some (.obj [("webhookPayload", payload)]))) ∧
      (webhookLoop env payload tasks acc).results.map Prod.fst =
        acc.results.map Prod.fst ++ tasks.map (fun t => t.id) := by
  intro tasks
  induction tasks with
  | nil => intro acc _; simp [webhookLoop]
  | cons task rest ih =>
      intro acc hout
      unfold webhookLoop at hout ⊢
      rcases ho : (_executeIngestionTask env acc.state acc.k task.id task
          (some (.obj [("webhookPayload", payload)]))).outcome with status | m
      · simp only [ho] at hout ⊢
        obtain ⟨h1, h2⟩ := ih _ hout
        rw [h1, h2]
        simp [execIngestion_execCalls]
      · simp [ho] at hout

end GlobalIngestionLifecycleManager

namespace GlobalIngestionLifecycleManager

theorem triggerWebhookTask_fst (env : ExecEnv) (st : ManagerState) (k : Nat)
    (endpointId : String) (payload : JVal)
    (hm : ¬ (webhookMatchedTasks st endpointId).length = 0) :
    (triggerWebhookTask env st k endpointId payload).1 =
      webhookLoop env payload (webhookMatchedTasks st endpointId) { state := st, k := k } := by
  unfold triggerWebhookTask
  rw [if_neg hm]
  rcases ht : (webhookLoop env payload (webhookMatchedTasks st endpointId)
      { state := st, k := k }).thrownMsg with _ | m
  · simp only [ht]
    split <;> rfl
  · simp only [ht]

end GlobalIngestionLifecycleManager

open GlobalIngestionLifecycleManager in
/-- C4: `triggerWebhookTask` executes exactly the enabled tasks whose
webhook trigger matches `endpointId`, each with payload
`{webhookPayload: payload}`; with zero matches it returns the
"no enabled webhook task found" failure and executes nothing; and when it
returns a Status, that Status is a success iff at least one task matched
and every per-task result status is a success. -/
theorem C4_webhook_fanout (env : ExecEnv) (st : ManagerState) (k : Nat)
    (endpointId : String) (payload : JVal) :
    (webhookMatchedTasks st endpointId = [] →
      (triggerWebhookTask env st k endpointId payload).2 =
        .ok { success := false,
              message := "No enabled webhook task found for endpointId: '" ++ endpointId ++ "'." } ∧
      (triggerWebhookTask env st k endpointId payload).1.execCalls = []) ∧
    (∀ s, (triggerWebhookTask env st k endpointId payload).2 = .ok s →
      (triggerWebhookTask env st k endpointId payload).1.execCalls =
        (webhookMatchedTasks st endpointId).map
          (fun t => (t.id, some (.obj [("webhookPayload", payload)]))) ∧
      (triggerWebhookTask env st k endpointId payload).1.results.map Prod.fst =
        (webhookMatchedTasks st endpointId).map (fun t => t.id) ∧
      (s.success = true ↔ (webhookMatchedTasks st endpointId ≠ [] ∧
        ∀ r ∈ (triggerWebhookTask env st k endpointId payload).1.results,
          r.2.success = true))) := by
  constructor
  · intro hm
    unfold GlobalIngestionLifecycleManager.triggerWebhookTask
    simp [hm]
  · intro s hs
    by_cases hm : (webhookMatchedTasks st endpointId).length = 0
    · rw [List.length_eq_zero] at hm
      unfold GlobalIngestionLifecycleManager.triggerWebhookTask at hs ⊢
      simp only [hm, List.length_nil, if_pos rfl] at hs ⊢
      cases hs
      simp [hm]
    · have hmne : webhookMatchedTasks st endpointId ≠ [] := by
        intro h; exact hm (by simp [h])
      have hfst := triggerWebhookTask_fst env st k endpointId payload hm
      rcases ht : (webhookLoop env payload (webhookMatchedTasks st endpointId)
          { state := st, k := k }).thrownMsg with _ | m
      · obtain ⟨h1, h2⟩ := webhookLoop_spec env payload (webhookMatchedTasks st endpointId)
          { state := st, k := k } ht
        refine ⟨by rw [hfst]; simpa using h1, by rw [hfst]; simpa using h2, ?_⟩
        unfold GlobalIngestionLifecycleManager.triggerWebhookTask at hs
        rw [if_neg hm] at hs
        simp only [ht] at hs
        rw [hfst]
        split at hs
        · cases hs
          simp only [Bool.false_eq_true, false_iff]
          rintro ⟨_, hall⟩
          have hz := (all_success_iff_no_failed
            (webhookLoop env payload (webhookMatchedTasks st endpointId)
              { state := st, k := k }).results).mpr hall
          omega
        · cases hs
          simp only [true_iff]
          refine ⟨hmne, ?_⟩
          have hz : (webhookLoop env payload (webhookMatchedTasks st endpointId)
              { state := st, k := k }).results.length -
              ((webhookLoop env payload (webhookMatchedTasks st endpointId)
                { state := st, k := k }).results.filter (fun r => r.2.success)).length = 0 := by
            omega
          exact fun r hr => (all_success_iff_no_failed _).mp hz r hr
      · unfold GlobalIngestionLifecycleManager.triggerWebhookTask at hs
        rw [if_neg hm] at hs
        simp [ht] at hs

theorem cronDue_iff (now : Int) (lastRun : Option Int) (pr : Int) :
    cronDue now lastRun pr = true ↔
      (now - 65 * 1000 < pr ∧ pr ≤ now ∧
        (lastRun = none ∨ ∃ lr, lastRun = some lr ∧ lr < pr)) := by
  unfold cronDue
  rcases lastRun with _ | lr <;> simp [and_assoc]

namespace GlobalIngestionLifecycleManager

theorem cronLoop_no_due (env : ExecEnv) (now : Int) :
    ∀ (tasks : List IngestionTaskDefinition) (acc : LoopAcc),
      (∀ t ∈ tasks, cronWillExecute env now t = false) →
      (cronLoop env now tasks acc).tasksDueCount = acc.tasksDueCount ∧
      (cronLoop env now tasks acc).execCalls = acc.execCalls := by
  intro tasks
  induction tasks with
  | nil => intro acc _; simp [cronLoop]
  | cons task rest ih =>
      intro acc hnd
      have hh := hnd task (by simp)
      have ht : ∀ t ∈ rest, cronWillExecute env now t = false :=
        fun t htm => hnd t (by simp [htm])
      unfold cronLoop
      cases hen : task.enabled
      · simpa using ih acc ht
      · rcases htr : task.trigger with e | e | _
        · rcases hp : env.cronPrev e now with pr | m
          · have hdue : cronDue now task.lastRun pr = false := by
              unfold cronWillExecute at hh
              simpa [hen, htr, hp] using hh
            simp only [hen, htr, hp, hdue]
            simpa using ih _ ht
          · simp only [hen, htr, hp]
            simpa using ih _ ht
        · simpa [hen, htr] using ih acc ht
        · simpa [hen, htr] using ih acc ht

theorem cronLoop_execCalls (env : ExecEnv) (now : Int) :
    ∀ (tasks : List IngestionTaskDefinition) (acc : LoopAcc),
      (cronLoop env now tasks acc).execCalls =
        acc.execCalls ++ (tasks.filter (fun t => cronWillExecute env now t)).map
          (fun t => (t.id, (none : Option JVal))) := by
  intro tasks
  induction tasks with
  | nil => intro acc; simp [cronLoop]
  | cons task rest ih =>
      intro acc
      unfold cronLoop
      cases hen : task.enabled
      · simp [hen, ih, List.filter_cons, cronWillExecute]
      · rcases htr : task.trigger with e | e | _
        · rcases hp : env.cronPrev e now with pr | m
          · cases hdue : cronDue now task.lastRun pr
            · simp [hen, htr, hp, hdue, ih, List.filter_cons, cronWillExecute]
            · rcases ho : (_executeIngestionTask env acc.state acc.k task.id task none).outcome
                with status | m
              · simp [hen, htr, hp, hdue, ho, ih, List.filter_cons, cronWillExecute,
                  execIngestion_execCalls]
              · simp [hen, htr, hp, hdue, ho, ih, List.filter_cons, cronWillExecute,
                  execIngestion_execCalls]
          · simp [hen, htr, hp, ih, List.filter_cons, cronWillExecute]
        · simp [hen, htr, ih, List.filter_cons, cronWillExecute]
        · simp [hen, htr, ih, List.filter_cons, cronWillExecute]

end GlobalIngestionLifecycleManager

namespace GlobalIngestionLifecycleManager

theorem triggerCron_fst (env : ExecEnv) (ctx : GSContext) (st : ManagerState) (k : Nat)
    (now : Int) (hnow : ctx.eventTime = some now) :
    (triggerAllEnabledCronTasks env ctx st k).1 =
      cronLoop env now (st.tasks.map Prod.snd) { state := st, k := k } := by
  unfold triggerAllEnabledCronTasks
  simp only [hnow]
  split
  · rfl
  · split <;> rfl

end GlobalIngestionLifecycleManager

open GlobalIngestionLifecycleManager in
/-- C9: when no enabled cron task is due (including tasks whose cron
expression fails to parse, whose per-task failure results are recorded in
the internal result list), `triggerAllEnabledCronTasks` returns the plain
success Status "No enabled cron tasks were due." with no data — the
recorded parse failures are absent from the returned Status — and
executes no task. -/
theorem C9_cron_no_due_returns_success (env : ExecEnv) (ctx : GSContext)
    (st : ManagerState) (k : Nat) (now : Int)
    (hnow : ctx.eventTime = some now)
    (hnd : ∀ t ∈ st.tasks.map Prod.snd, cronWillExecute env now t = false) :
    (triggerAllEnabledCronTasks env ctx st k).2 =
      { success := true, message := "No enabled cron tasks were due." } ∧
    (triggerAllEnabledCronTasks env ctx st k).1.execCalls = [] := by
  obtain ⟨hd, he⟩ :=
    cronLoop_no_due env now (st.tasks.map Prod.snd) { state := st, k := k } hnd
  constructor
  · unfold GlobalIngestionLifecycleManager.triggerAllEnabledCronTasks
    simp only [hnow]
    rw [if_pos hd]
  · rw [triggerCron_fst env ctx st k now hnow, he]

open GlobalIngestionLifecycleManager in
/-- Witness for C9: the store's only task is an enabled cron task whose
expression fails to parse (`wEnvOk`'s cron parser always throws); the call
records the per-task parse failure in the internal result list yet returns
the plain no-due success Status. -/
theorem C9_cron_no_due_returns_success_witness :
    (∀ t ∈ wStoreCron.tasks.map Prod.snd, cronWillExecute wEnvOk 0 t = false) ∧
    (triggerAllEnabledCronTasks wEnvOk { eventTime := some 0 } wStoreCron 0).2 =
      { success := true, message := "No enabled cron tasks were due." } ∧
    (triggerAllEnabledCronTasks wEnvOk { eventTime := some 0 } wStoreCron 0).1.results =
      [("tc", { success := false, message := "Cron expression parse error: parse error" })] :=
  ⟨fun t ht => by
      simp only [wStoreCron, List.map_cons, List.map_nil, List.mem_singleton] at ht
      subst ht
      rfl,
    (C9_cron_no_due_returns_success wEnvOk { eventTime := some 0 } wStoreCron 0 0 rfl
      (fun t ht => by
        simp only [wStoreCron, List.map_cons, List.map_nil, List.mem_singleton] at ht
        subst ht
        rfl)).1,
    rfl⟩

open GlobalIngestionLifecycleManager in
/-- C3: an enabled task with a parseable cron trigger is executed by
`triggerAllEnabledCronTasks` iff the computed most recent fire time `pr`
(at or before `now`) lies strictly inside the 65-second window before
`now`, is at or before `now`, and the task's `lastRun` is unset or
strictly older than `pr`; and, concretely, two evaluations within the same
every-minute slot — the second seeing the `lastRun` stamped by the first —
execute the task exactly once in total. -/
theorem C3_cron_due_iff (env : ExecEnv) (ctx : GSContext) (st : ManagerState) (k : Nat)
    (now : Int) (t : IngestionTaskDefinition) (expr : String) (pr : Int)
    (hnow : ctx.eventTime = some now)
    (hval : t ∈ st.tasks.map Prod.snd)
    (hnodup : ((st.tasks.map Prod.snd).map (fun v => v.id)).Nodup)
    (hen : t.enabled = true)
    (htrig : t.trigger = .cron expr)
    (hp : env.cronPrev expr now = .ok pr) :
    ((t.id ∈ (triggerAllEnabledCronTasks env ctx st k).1.execCalls.map Prod.fst) ↔
      (now - 65 * 1000 < pr ∧ pr ≤ now ∧
        (t.lastRun = none ∨ ∃ lr, t.lastRun = some lr ∧ lr < pr))) ∧
    ((triggerAllEnabledCronTasks wCronEnv { eventTime := some 60200 }
        wStoreCron 0).1.execCalls.length = 1 ∧
      (triggerAllEnabledCronTasks wCronEnv { eventTime := some 60900 }
        (triggerAllEnabledCronTasks wCronEnv { eventTime := some 60200 } wStoreCron 0).1.state
        (triggerAllEnabledCronTasks wCronEnv { eventTime := some 60200 } wStoreCron 0).1.k
        ).1.execCalls.length = 0) := by
  constructor
  · rw [triggerCron_fst env ctx st k now hnow, cronLoop_execCalls]
    simp only [List.nil_append, List.map_map, List.map_nil]
    rw [← cronDue_iff now t.lastRun pr]
    generalize hvals : st.tasks.map Prod.snd = vals at hval hnodup ⊢
    constructor
    · intro hmem
      simp only [List.mem_map, List.mem_filter, Function.comp] at hmem
      obtain ⟨a, ⟨haval, hwe⟩, hid⟩ := hmem
      have ha : a = t := List.inj_on_of_nodup_map hnodup haval hval hid
      subst ha
      unfold cronWillExecute at hwe
      simpa [hen, htrig, hp] using hwe
    · intro hdue
      simp only [List.mem_map, List.mem_filter, Function.comp]
      refine ⟨t, ⟨hval, ?_⟩, rfl⟩
      unfold cronWillExecute
      simp [hen, htrig, hp, hdue]
  · exact ⟨rfl, rfl⟩

open GlobalIngestionLifecycleManager in
/-- Witness for C3 on the every-minute task with `now` = 60200 ms. -/
theorem C3_cron_due_iff_witness :
    (wCronEnv.cronPrev "*/1 * * * *" 60200 = .ok 60000 ∧ wTaskCron.enabled = true ∧
      wTaskCron.trigger = .cron "*/1 * * * *") ∧
    ((("tc" : String) ∈ (triggerAllEnabledCronTasks wCronEnv { eventTime := some 60200 }
        wStoreCron 0).1.execCalls.map Prod.fst) ↔
      ((60200 : Int) - 65 * 1000 < 60000 ∧ (60000 : Int) ≤ 60200 ∧
        (wTaskCron.lastRun = none ∨ ∃ lr, wTaskCron.lastRun = some lr ∧ lr < 60000))) :=
  ⟨⟨rfl, rfl, rfl⟩,
    (C3_cron_due_iff wCronEnv { eventTime := some 60200 } wStoreCron 0 60200 wTaskCron
      "*/1 * * * *" 60000 rfl (by simp [wStoreCron]) (by simp [wStoreCron, wTaskCron])
      rfl rfl rfl).1⟩

open GlobalIngestionLifecycleManager in
/-- Witness for C4: two enabled webhook tasks sharing endpoint `X` both
execute with the payload attached, and the aggregate status is a success
because both succeeded. -/
theorem C4_webhook_fanout_witness :
    (webhookMatchedTasks wStoreWh "X" = [wTaskWh1, wTaskWh2]) ∧
    (triggerWebhookTask wEnvOk wStoreWh 0 "X" (.str "pl")).1.execCalls =
      (webhookMatchedTasks wStoreWh "X").map
        (fun t => (t.id, some (.obj [("webhookPayload", .str "pl")]))) ∧
    ({ success := true,
       message := "Webhook successfully triggered 2 tasks.",
       data := some (resultsToJVal [("w1", { success := true }), ("w2", { success := true })])
       : GSStatus }).success = true :=
  ⟨rfl,
    ((C4_webhook_fanout wEnvOk wStoreWh 0 "X" (.str "pl")).2
      { success := true,
        message := "Webhook successfully triggered 2 tasks.",
        data := some (resultsToJVal [("w1", { success := true }), ("w2", { success := true })]) }
      rfl).1,
    rfl⟩
